import Mathlib

/-!
Verification of the fleet-lifecycle / blue-green rollout orchestrator in
`contrib/vm/container_manager.py`.

The embedding models:
  * the module-level constants (node count, timeouts, container names);
  * the HA-Proxy configuration builder of `restart_haproxy` (the generated
    text document is represented by its list of physical lines; Python's
    `"\n".join(lines)` of multi-line chunks corresponds to concatenating
    the chunks' line lists, which is exact as long as node names contain no
    newline — all real node names are of the form `sc-<i><suffix>`);
  * the `SCLXC` wrapper methods (`clone`, `create` is not needed by any
    claim, `destroy`, `inside`, `save_logs`, `shutdown`, `start`, `update`)
    as explicit state transformers over an abstract container world, with
    an oracle (`Backend`) for the success or failure of every primitive
    lxc / in-container operation and for network readiness;
  * the `args.deploy` block (lines 827-859 of the source) including the
    final unconditional `restart_haproxy` call.

External effects that no claim depends on are elided and noted at the
definition that elides them (apt / resolvconf bootstrap inside
`restart_haproxy`, the cron file it writes, the actual bytes copied by
`save_logs`, wall-clock sleeping in `timer_delay`).
-/

/-! ## Module constants (container_manager.py lines 22-38) -/

def number_of_compute_nodes : Nat := 3

def lxcn_sagecell : String := "sagecell"

def lxcn_tester : String := "sctest"

def lxcn_prefix : String := "sc-"

/-- Timeout in seconds to wait for a container to shutdown, network to start
etc. (`timeout = 60`). -/
def timeout : Nat := 60

/-- Time after which SageCell should be up and running (`start_delay = 66`). -/
def start_delay : Nat := 66

/-- How long to wait after starting new containers before destroying old ones
(`deploy_delay = 2*60*60`). -/
def deploy_delay : Nat := 2 * 60 * 60

/-! ## HA-Proxy configuration builder

The Python code keeps three template strings (`HAProxy_header`,
`HAProxy_section`, `HAProxy_stats`) and assembles
`"\n".join(lines)` where `lines` collects multi-line chunks.  We represent
every chunk by its list of physical lines.  A template line containing the
`{node}` placeholder is represented by the list of its literal pieces
around the placeholder (the result of Python's `l.split("{node}")`), and
substitution intercalates the node name between the pieces — exactly the
semantics of `l.replace("{node}", n)`. -/

/-- Physical lines of `HAProxy_header` (source lines 148-175).  The template
string ends with a newline, hence the trailing empty line. -/
def HAProxy_header : List String :=
  [ "global",
    "    chroot /var/lib/haproxy",
    "    daemon",
    "    group haproxy",
    "    user haproxy",
    "    log /dev/log local0",
    "",
    "",
    "defaults",
    "    log global",
    "    mode http",
    "    option dontlognull",
    "    option http-server-close",
    "    option httplog",
    "    option redispatch",
    "    timeout connect 5s",
    "    timeout client 50s",
    "    timeout server 50s",
    "",
    "    errorfile 400 /etc/haproxy/errors/400.http",
    "    errorfile 403 /etc/haproxy/errors/403.http",
    "    errorfile 408 /etc/haproxy/errors/408.http",
    "    errorfile 500 /etc/haproxy/errors/500.http",
    "    errorfile 502 /etc/haproxy/errors/502.http",
    "    errorfile 503 /etc/haproxy/errors/503.http",
    "    errorfile 504 /etc/haproxy/errors/504.http",
    "" ]

/-- Substitute a node name for the `{node}` placeholder: `pieces` is
`l.split("{node}")` and the result is `l.replace("{node}", n)`. -/
def substNode (pieces : List String) (n : String) : String :=
  match pieces with
  | [] => ""
  | p :: rest => rest.foldl (fun acc q => acc ++ n ++ q) p

/-- Lines of `HAProxy_section` (source lines 179-198) after substituting the
`{suffix}` and `{port}` placeholders, i.e. the result of Python's
`HAProxy_section.replace("{port}", port).replace("{suffix}", suffix)`,
split into physical lines (`splitlines()`: the leading newline of the
template yields a leading empty line, the trailing newline yields no
trailing element).  Each line is given as its `{node}`-split pieces. -/
def sectionLines (suffix port : String) : List (List String) :=
  [ [""],
    ["frontend http" ++ suffix],
    ["    bind *:" ++ port],
    ["    use_backend permalink" ++ suffix ++ " if { path_beg /permalink }"],
    ["    use_backend static" ++ suffix ++ " if { path_beg /static }"],
    ["    use_backend compute" ++ suffix],
    [""],
    ["backend permalink" ++ suffix],
    ["    server central" ++ suffix ++ " sagecell.sagemath.org"],
    [""],
    ["backend static" ++ suffix],
    ["    server ", "-static ", ":8889 check"],
    [""],
    ["backend compute" ++ suffix],
    ["    cookie  SAGECELL_SERVER insert indirect postonly maxidle 2h"],
    ["    option httpchk"],
    [""],
    ["    server ", " ", ":8888 cookie ", " check port 9888"],
    ["    server ", "-backup ", ":8888 cookie ", " check backup"] ]

/-- Expansion loop of `restart_haproxy` (source lines 704-709): a template
line containing `{node}` (two or more pieces) is repeated for each node;
other lines are emitted once.  The source joins the per-node copies with
newlines into one chunk, which contributes exactly these physical lines. -/
def expandNodeLines (tmpl : List (List String)) (nodes : List String) : List String :=
  tmpl.flatMap fun pieces =>
    if pieces.length ≤ 1 then pieces else nodes.map (substNode pieces)

/-- Physical lines of the test-node chunk (source lines 710-713): the whole
section string — with its trailing newline, hence the extra `""` — with
port 8888, suffix `_test`, and every `{node}` replaced by the tester. -/
def testerSection : List String :=
  expandNodeLines (sectionLines "_test" "8888") [lxcn_tester] ++ [""]

/-- Physical lines of `HAProxy_stats` (source lines 200-207). -/
def HAProxy_stats : List String :=
  [ "",
    "listen stats",
    "    bind *:9999",
    "    stats enable",
    "    stats refresh 5s",
    "    stats uri /",
    "    stats show-legends",
    "" ]

/-- Physical lines of the configuration document written by
`restart_haproxy` (source lines 700-716), as a function of the defined
nodes among `all_nodes` and of whether the tester container is defined. -/
def haproxyDoc (nodes : List String) (testerDefined : Bool) : List String :=
  HAProxy_header
    ++ (if nodes.isEmpty then [] else expandNodeLines (sectionLines "" "80") nodes)
    ++ (if testerDefined then testerSection else [])
    ++ HAProxy_stats

/-- Production compute backend of the generated document: the lines of the
production section from its `backend compute` header on (it is the last
backend of the section). -/
def computeBackendLines (nodes : List String) : List String :=
  (expandNodeLines (sectionLines "" "80") nodes).dropWhile
    (fun l => l != "backend compute")

/-- Server lines of the configuration (lines introduced by the
`server` keyword at the standard indentation). -/
def isServerLine (l : String) : Bool :=
  "    server ".data.isPrefixOf l.data

/-! ## Container world

A container is identified by its name.  `CState` is the runtime-visible
state of one name: whether it is defined and running, the two persisted
autostart configuration items (`lxc.start.auto`, `lxc.start.delay`), and
whether stale SageCell log files are present in its filesystem. -/

structure CState where
  defined : Bool
  running : Bool
  startAuto : Option String
  startDelay : Option String
  hasStaleLogs : Bool
deriving DecidableEq

/-- State of an undefined container name. -/
def CState.undef : CState :=
  { defined := false, running := false, startAuto := none, startDelay := none,
    hasStaleLogs := false }

/-- Global state: the container registry plus the single shared HA-Proxy
configuration file (as its list of physical lines). -/
structure World where
  cs : String → CState
  haproxyCfg : List String

def setC (w : World) (name : String) (c : CState) : World :=
  { w with cs := fun m => if m = name then c else w.cs m }

/-- Oracle for the outcomes of the primitive lxc operations and of the
environment: whether `c.stop()`, `c.destroy()`, `c.clone(...)`,
`c.start()`, `c.shutdown(t)` succeed, whether `c.get_ips(timeout=t)`
observes an address within `t` seconds, and whether `attach_wait` of a
command exits with status 0. -/
structure Backend where
  stopOk : String → Bool
  destroyOk : String → Bool
  cloneOk : String → String → Bool
  startOk : String → Bool
  shutdownOk : String → Bool
  ipUp : String → Nat → Bool
  execOk : String → String → Bool

/-- Backend on which every primitive operation succeeds. -/
def allOk : Backend :=
  { stopOk := fun _ => true, destroyOk := fun _ => true,
    cloneOk := fun _ _ => true, startOk := fun _ => true,
    shutdownOk := fun _ => true, ipUp := fun _ _ => true,
    execOk := fun _ _ => true }

/-- Failures raised by the script (`raise RuntimeError(...)` sites), named
after the messages in the source. -/
inductive Err where
  | cloneSourceUndefined (name : String)
  | failedToStop (name : String)
  | failedToDestroy (name : String)
  | failedToClone (name : String)
  | failedToStart (name : String)
  | networkTimeout (name : String)
  | shutdownFailed (name : String)
  | execFailed (name cmd : String)
deriving DecidableEq

/-- Observable events of a run, in order: primitive container operations,
in-container command executions, log archiving, HA-Proxy configuration
writes and reloads, and bounded waits (`timer_delay`). -/
inductive Ev where
  | stop (name : String)
  | destroyC (name : String)
  | snapshot (src tgt : String)
  | startC (name : String)
  | shutdownC (name : String)
  | exec (name cmd : String)
  | saveLogsE (name : String)
  | writeCfg (cfg : List String)
  | reloadLB
  | wait (seconds : Nat)
deriving DecidableEq

/-- Outcome of a (possibly failing) stateful step: the value and final world
on success, or the raised failure and the world at the raise; both carry
the trace of events so far.  An uncaught Python exception terminates the
script, which `Res.fail` models. -/
inductive Res (α : Type) where
  | ok (a : α) (w : World) (tr : List Ev)
  | fail (e : Err) (w : World) (tr : List Ev)

def Res.withTrace {β : Type} : Res β → List Ev → Res β
  | .ok b w tr2, tr => .ok b w (tr ++ tr2)
  | .fail e w tr2, tr => .fail e w (tr ++ tr2)

/-- Sequencing: run the continuation unless a failure already occurred. -/
def Res.andThen {α β : Type} : Res α → (α → World → Res β) → Res β
  | .ok a w tr, f => (f a w).withTrace tr
  | .fail e w tr, _ => .fail e w tr

def Res.errOf {α : Type} : Res α → Option Err
  | .ok _ _ _ => none
  | .fail e _ _ => some e

def Res.world {α : Type} : Res α → World
  | .ok _ w _ => w
  | .fail _ w _ => w

def Res.trace {α : Type} : Res α → List Ev
  | .ok _ _ tr => tr
  | .fail _ _ tr => tr

/-! ## SCLXC methods (source lines 493-678)

Each method of the Python wrapper class becomes a function from a world to
a `Res`.  `self` is the container name. -/

/-- Method `SCLXC.destroy` (source lines 558-570): stop and destroy self if
it exists; silently do nothing when the name is not defined. -/
def SCLXC.destroy (b : Backend) (name : String) (w : World) : Res Unit :=
  let c := w.cs name
  if c.defined then
    if c.running then
      if b.stopOk name then
        if b.destroyOk name then
          Res.ok () (setC w name CState.undef) [Ev.stop name, Ev.destroyC name]
        else
          Res.fail (.failedToDestroy name)
            (setC w name { c with running := false }) [Ev.stop name, Ev.destroyC name]
      else Res.fail (.failedToStop name) w [Ev.stop name]
    else
      if b.destroyOk name then
        Res.ok () (setC w name CState.undef) [Ev.destroyC name]
      else Res.fail (.failedToDestroy name) w [Ev.destroyC name]
  else Res.ok () w []

/-- Method `SCLXC.shutdown` (source lines 659-661): request a graceful stop,
bounded by `timeout`, only when running. -/
def SCLXC.shutdown (b : Backend) (name : String) (w : World) : Res Unit :=
  let c := w.cs name
  if c.running then
    if b.shutdownOk name then
      Res.ok () (setC w name { c with running := false }) [Ev.shutdownC name]
    else Res.fail (.shutdownFailed name) w [Ev.shutdownC name]
  else Res.ok () w []

/-- Method `SCLXC.start` (source lines 663-670): start self unless already
running, then require `get_ips(timeout=timeout)` to observe an address;
a network timeout raises but leaves the container running. -/
def SCLXC.start (b : Backend) (name : String) (w : World) : Res Unit :=
  let c := w.cs name
  if c.running then
    if b.ipUp name timeout then Res.ok () w []
    else Res.fail (.networkTimeout name) w []
  else
    if c.defined && b.startOk name then
      let w1 := setC w name { c with running := true }
      if b.ipUp name timeout then Res.ok () w1 [Ev.startC name]
      else Res.fail (.networkTimeout name) w1 [Ev.startC name]
    else Res.fail (.failedToStart name) w [Ev.startC name]

/-- Method `SCLXC.inside` (source lines 572-595) for a command argument:
ensure self is started, then run the command via `attach_wait`, raising on
a non-zero result. -/
def SCLXC.inside (b : Backend) (name cmd : String) (w : World) : Res Unit :=
  (SCLXC.start b name w).andThen fun _ w1 =>
    if b.execOk name cmd then Res.ok () w1 [Ev.exec name cmd]
    else Res.fail (.execFailed name cmd) w1 [Ev.exec name cmd]

/-- Method `SCLXC.update` (source lines 672-678): refresh OS packages inside
the container. -/
def SCLXC.update (b : Backend) (name : String) (w : World) : Res Unit :=
  (SCLXC.inside b name "apt-get update" w).andThen fun _ w1 =>
    SCLXC.inside b name "apt-get dist-upgrade -y --auto-remove" w1

/-- Method `SCLXC.clone` (source lines 502-524): require self to be defined,
optionally update, shut self down, destroy any pre-existing container with
the clone's name, snapshot-clone, persist the autostart items on the new
container when requested, and remove its stale SageCell log files.  The
snapshot copies the source's persisted configuration and filesystem
artifacts. -/
def SCLXC.clone (b : Backend) (name cloneName : String) (autostart update : Bool)
    (w : World) : Res Unit :=
  if !(w.cs name).defined then Res.fail (.cloneSourceUndefined name) w []
  else
    (if update then SCLXC.update b name w else Res.ok () w []).andThen fun _ w1 =>
    (SCLXC.shutdown b name w1).andThen fun _ w2 =>
    (SCLXC.destroy b cloneName w2).andThen fun _ w3 =>
    if b.cloneOk name cloneName then
      let sc := w3.cs name
      let base : CState :=
        { defined := true, running := false, startAuto := sc.startAuto,
          startDelay := sc.startDelay, hasStaleLogs := sc.hasStaleLogs }
      let withAuto :=
        if autostart then
          { base with startAuto := some "1", startDelay := some (toString start_delay) }
        else base
      Res.ok () (setC w3 cloneName { withAuto with hasStaleLogs := false })
        [Ev.snapshot name cloneName]
    else Res.fail (.failedToClone name) w3 [Ev.snapshot name cloneName]

/-- Method `SCLXC.save_logs` (source lines 643-657): archive the container's
recent log window.  The file inspection and copy are host-side effects
outside the modelled state; the method raises nothing and changes no
container, so it is modelled as the bare archival event. -/
def SCLXC.save_logs (name : String) (w : World) : Res Unit :=
  Res.ok () w [Ev.saveLogsE name]

/-! ## Deploy flow (source lines 681-722 and 827-859) -/

/-- Wait with a countdown timer, `timer_delay` (source lines 241-256): pure
wall-clock suspension, recorded as an event. -/
def timer_delay (seconds : Nat) (w : World) : Res Unit :=
  Res.ok () w [Ev.wait seconds]

/-- Per-slot node names of one color, `"{}{}{}".format(lxcn_prefix, n, suffix)`
for `n in range(number_of_compute_nodes)` (source lines 828-831). -/
def nodeNames (suffix : String) : List String :=
  (List.range number_of_compute_nodes).map fun n => lxcn_prefix ++ toString n ++ suffix

/-- Initial new-generation pool (`new_suffix = "A"`, source line 827). -/
def new_nodes : List String := nodeNames "A"

/-- Initial old-generation pool (`old_suffix = "B"`, source line 827). -/
def old_nodes : List String := nodeNames "B"

/-- Union of both pools in the fixed order computed at source line 832,
before any swap. -/
def all_nodes : List String := new_nodes ++ old_nodes

/-- Function `restart_haproxy` (source lines 681-722): regenerate the whole
configuration from the currently defined nodes of `all_nodes` plus the
tester, write it, and reload the balancer.  The haproxy version check, the
resolvconf bootstrap and the cron file it also writes are host-environment
bootstrap with no bearing on any claim and are elided. -/
def restart_haproxy (w : World) : Res Unit :=
  let nodes := all_nodes.filter fun n => (w.cs n).defined
  let cfg := haproxyDoc nodes ((w.cs lxcn_tester).defined)
  Res.ok () { w with haproxyCfg := cfg } [Ev.writeCfg cfg, Ev.reloadLB]

/-- Provisioning loop (source lines 838-839):
`for n in new_nodes: sagecell.clone(n, autostart=True).start()`. -/
def provisionLoop (b : Backend) (ns : List String) (w : World) : Res Unit :=
  match ns with
  | [] => Res.ok () w []
  | n :: rest =>
    (SCLXC.clone b lxcn_sagecell n true false w).andThen fun _ w1 =>
    (SCLXC.start b n w1).andThen fun _ w2 =>
    provisionLoop b rest w2

/-- Draining loop (source lines 843-848): toggle the health check off inside
every still-defined old node, remembering whether any was defined. -/
def drainLoop (b : Backend) (ns : List String) (need : Bool) (w : World) : Res Bool :=
  match ns with
  | [] => Res.ok need w []
  | n :: rest =>
    if (w.cs n).defined then
      (SCLXC.inside b n "/root/healthcheck off" w).andThen fun _ w1 =>
        drainLoop b rest true w1
    else drainLoop b rest need w

/-- Finalizing loop (source lines 855-857):
`for n in old_nodes: n.save_logs(); n.destroy()`. -/
def finalizeLoop (b : Backend) (ns : List String) (w : World) : Res Unit :=
  match ns with
  | [] => Res.ok () w []
  | n :: rest =>
    (SCLXC.save_logs n w).andThen fun _ w1 =>
    (SCLXC.destroy b n w1).andThen fun _ w2 =>
    finalizeLoop b rest w2

/-- Deploy block (source lines 834-857): swap the pools when the target pool
is already fully defined, provision the new generation from the master,
cut the balancer over, wait out initialization, drain the old generation,
wait the grace period unless `--nodelay`, cycle the master for a fresh
address, and finalize (archive logs, destroy) every old node. -/
def deployBlock (b : Backend) (nodelay : Bool) (w : World) : Res Unit :=
  let swapped := new_nodes.all fun n => (w.cs n).defined
  let newN := if swapped then old_nodes else new_nodes
  let oldN := if swapped then new_nodes else old_nodes
  (provisionLoop b newN w).andThen fun _ w1 =>
  (restart_haproxy w1).andThen fun _ w2 =>
  (timer_delay start_delay w2).andThen fun _ w3 =>
  (drainLoop b oldN false w3).andThen fun need w4 =>
  (if need && !nodelay then
    (timer_delay deploy_delay w4).andThen fun _ w5 =>
    (SCLXC.start b lxcn_sagecell w5).andThen fun _ w6 =>
    SCLXC.shutdown b lxcn_sagecell w6
  else Res.ok () w4 []).andThen fun _ w7 =>
  finalizeLoop b oldN w7

/-- Whole `--deploy` invocation: the deploy block followed — only when no
exception aborted the script — by the unconditional `restart_haproxy`
at source line 859. -/
def scriptDeploy (b : Backend) (nodelay : Bool) (w : World) : Res Unit :=
  (deployBlock b nodelay w).andThen fun _ w1 => restart_haproxy w1

/-- Node pool the written configuration's production section is generated
from: the defined nodes of `all_nodes`. -/
def liveNodes (w : World) : List String :=
  all_nodes.filter fun n => (w.cs n).defined

/-! ## Auxiliary definitions used by the statements -/

/-- Predicate over states reached right before a deploy run in the steady
regime with color B live: the three B nodes are defined and running, the
A pool is absent, the master container exists and is stopped, and no
tester container is defined. -/
def standardPreB (w : World) : Prop :=
  (w.cs "sc-0B").defined = true ∧ (w.cs "sc-0B").running = true ∧
  (w.cs "sc-1B").defined = true ∧ (w.cs "sc-1B").running = true ∧
  (w.cs "sc-2B").defined = true ∧ (w.cs "sc-2B").running = true ∧
  (w.cs "sc-0A").defined = false ∧ (w.cs "sc-1A").defined = false ∧
  (w.cs "sc-2A").defined = false ∧
  (w.cs "sagecell").defined = true ∧ (w.cs "sagecell").running = false ∧
  (w.cs "sctest").defined = false

/-- Mirror image of `standardPreB` with color A live. -/
def standardPreA (w : World) : Prop :=
  (w.cs "sc-0A").defined = true ∧ (w.cs "sc-0A").running = true ∧
  (w.cs "sc-1A").defined = true ∧ (w.cs "sc-1A").running = true ∧
  (w.cs "sc-2A").defined = true ∧ (w.cs "sc-2A").running = true ∧
  (w.cs "sc-0B").defined = false ∧ (w.cs "sc-1B").defined = false ∧
  (w.cs "sc-2B").defined = false ∧
  (w.cs "sagecell").defined = true ∧ (w.cs "sagecell").running = false ∧
  (w.cs "sctest").defined = false

/-- Payload of the first configuration write of a trace: the document the
cutover (`Routing` step) put into `/etc/haproxy/haproxy.cfg`. -/
def firstWriteCfg : List Ev → Option (List String)
  | [] => none
  | .writeCfg cfg :: _ => some cfg
  | _ :: rest => firstWriteCfg rest

/-- Check that a trace destroys no container at all. -/
def noDestroyEv (tr : List Ev) : Bool :=
  tr.all fun e => match e with | .destroyC _ => false | _ => true

/-- Check that a trace never writes the load-balancer configuration. -/
def noWriteCfgEv (tr : List Ev) : Bool :=
  tr.all fun e => match e with | .writeCfg _ => false | _ => true

/-- Old-generation nodes processed after `bad` by the finalizing loop. -/
def oldAfter (bad : String) : List String :=
  old_nodes.filter fun n => old_nodes.indexOf bad < old_nodes.indexOf n

/-- New-generation nodes provisioned before `bad` by the provisioning loop. -/
def newBefore (bad : String) : List String :=
  new_nodes.filter fun n => new_nodes.indexOf n < new_nodes.indexOf bad

/-- Backend on which everything succeeds except that the network of `bad`
never becomes ready. -/
def failNet (bad : String) : Backend := { allOk with ipUp := fun n _ => n != bad }

/-- Backend on which everything succeeds except that commands executed
inside `bad` exit with a non-zero status. -/
def failExec (bad : String) : Backend := { allOk with execOk := fun n _ => n != bad }

/-- Backend on which everything succeeds except the destroy primitive on
`bad`. -/
def failDestroy (bad : String) : Backend :=
  { allOk with destroyOk := fun n => n != bad }

/-- Backend whose network readiness poll never observes an address. -/
def neverIp : Backend := { allOk with ipUp := fun _ _ => false }

/-- State of one live, running compute node with no special configuration. -/
def liveCState : CState :=
  { defined := true, running := true, startAuto := none, startDelay := none,
    hasStaleLogs := false }

/-- State of the defined, stopped master container. -/
def masterCState : CState :=
  { defined := true, running := false, startAuto := none, startDelay := none,
    hasStaleLogs := false }

/-- Concrete steady-regime world: color B live, master defined and stopped,
everything else absent; the previous configuration file content is empty. -/
def w0 : World :=
  { cs := fun n =>
      if n = "sc-0B" ∨ n = "sc-1B" ∨ n = "sc-2B" then liveCState
      else if n = "sagecell" then masterCState
      else CState.undef,
    haproxyCfg := [] }

/-- World in which no container is defined. -/
def wUndef : World := { cs := fun _ => CState.undef, haproxyCfg := [] }

/-! ## General lemmas -/

@[simp] theorem cs_setC (w : World) (n : String) (c : CState) (m : String) :
    (setC w n c).cs m = if m = n then c else w.cs m := rfl

@[simp] theorem haproxyCfg_setC (w : World) (n : String) (c : CState) :
    (setC w n c).haproxyCfg = w.haproxyCfg := rfl

theorem new_nodes_eq : new_nodes = ["sc-0A", "sc-1A", "sc-2A"] := by decide

theorem old_nodes_eq : old_nodes = ["sc-0B", "sc-1B", "sc-2B"] := by decide

theorem all_nodes_eq :
    all_nodes = ["sc-0A", "sc-1A", "sc-2A", "sc-0B", "sc-1B", "sc-2B"] := by decide

theorem isServerLine_append (rest : String) :
    isServerLine ("    server " ++ rest) = true := by
  simp only [isServerLine, String.data_append, List.isPrefixOf_iff_prefix]
  exact List.prefix_append _ _

theorem isServerLine_static (n : String) :
    isServerLine ("    server " ++ n ++ "-static " ++ n ++ ":8889 check") = true := by
  simpa [String.append_assoc] using
    isServerLine_append (n ++ ("-static " ++ (n ++ ":8889 check")))

theorem isServerLine_prim (n : String) :
    isServerLine ("    server " ++ n ++ " " ++ n ++ ":8888 cookie " ++ n
      ++ " check port 9888") = true := by
  simpa [String.append_assoc] using
    isServerLine_append
      (n ++ (" " ++ (n ++ (":8888 cookie " ++ (n ++ " check port 9888")))))

theorem isServerLine_backup (n : String) :
    isServerLine ("    server " ++ n ++ "-backup " ++ n ++ ":8888 cookie " ++ n
      ++ " check backup") = true := by
  simpa [String.append_assoc] using
    isServerLine_append
      (n ++ ("-backup " ++ (n ++ (":8888 cookie " ++ (n ++ " check backup")))))

theorem substNode_static :
    substNode ["    server ", "-static ", ":8889 check"]
      = fun n => "    server " ++ n ++ "-static " ++ n ++ ":8889 check" := rfl

theorem substNode_prim :
    substNode ["    server ", " ", ":8888 cookie ", " check port 9888"]
      = fun n => "    server " ++ n ++ " " ++ n ++ ":8888 cookie " ++ n
          ++ " check port 9888" := rfl

theorem substNode_backup :
    substNode ["    server ", "-backup ", ":8888 cookie ", " check backup"]
      = fun n => "    server " ++ n ++ "-backup " ++ n ++ ":8888 cookie " ++ n
          ++ " check backup" := rfl

/-- Closed form of the production section for an arbitrary node list. -/
theorem mainLines_eq (nodes : List String) :
    expandNodeLines (sectionLines "" "80") nodes =
      [ "", "frontend http", "    bind *:80",
        "    use_backend permalink if { path_beg /permalink }",
        "    use_backend static if { path_beg /static }",
        "    use_backend compute", "", "backend permalink",
        "    server central sagecell.sagemath.org", "", "backend static" ]
      ++ (nodes.map (fun n => "    server " ++ n ++ "-static " ++ n ++ ":8889 check")
      ++ ([""]
      ++ ("backend compute"
        :: "    cookie  SAGECELL_SERVER insert indirect postonly maxidle 2h"
        :: "    option httpchk" :: ""
        :: (nodes.map (fun n => "    server " ++ n ++ " " ++ n ++ ":8888 cookie "
              ++ n ++ " check port 9888")
          ++ nodes.map (fun n => "    server " ++ n ++ "-backup " ++ n
              ++ ":8888 cookie " ++ n ++ " check backup"))))) := by
  simp [expandNodeLines, sectionLines, List.flatMap, substNode_static,
    substNode_prim, substNode_backup]

theorem dropWhile_append_all {α : Type} (p : α → Bool) (xs ys : List α)
    (h : ∀ x ∈ xs, p x = true) :
    List.dropWhile p (xs ++ ys) = List.dropWhile p ys := by
  induction xs with
  | nil => rfl
  | cons x xs ih =>
    simp only [List.cons_append, List.dropWhile_cons, h x (by simp)]
    exact ih fun a ha => h a (by simp [ha])

/-- Closed form of the compute backend for an arbitrary node list. -/
theorem computeBackendLines_eq (nodes : List String) :
    computeBackendLines nodes =
      "backend compute"
        :: "    cookie  SAGECELL_SERVER insert indirect postonly maxidle 2h"
        :: "    option httpchk" :: ""
        :: (nodes.map (fun n => "    server " ++ n ++ " " ++ n ++ ":8888 cookie "
              ++ n ++ " check port 9888")
          ++ nodes.map (fun n => "    server " ++ n ++ "-backup " ++ n
              ++ ":8888 cookie " ++ n ++ " check backup")) := by
  unfold computeBackendLines
  rw [mainLines_eq]
  rw [dropWhile_append_all]
  · rw [dropWhile_append_all]
    · rw [dropWhile_append_all]
      · rw [List.dropWhile_cons]
        simp
      · intro x hx
        fin_cases hx
        decide
    · intro x hx
      rcases List.mem_map.mp hx with ⟨n, -, rfl⟩
      rw [bne_iff_ne]
      intro hcontra
      have h1 := isServerLine_static n
      rw [hcontra] at h1
      simp [isServerLine] at h1
  · intro x hx
    fin_cases hx <;> decide

theorem countP_computeBackend (nodes : List String) :
    (computeBackendLines nodes).countP isServerLine = 2 * nodes.length := by
  have c1 : isServerLine "backend compute" = false := by decide
  have c2 : isServerLine
      "    cookie  SAGECELL_SERVER insert indirect postonly maxidle 2h" = false := by
    decide
  have c3 : isServerLine "    option httpchk" = false := by decide
  have c4 : isServerLine "" = false := by decide
  have h1 : List.countP
      (isServerLine ∘ fun n => "    server " ++ n ++ " " ++ n ++ ":8888 cookie "
        ++ n ++ " check port 9888") nodes = nodes.length := by
    rw [List.countP_eq_length]
    intro a _
    exact isServerLine_prim a
  have h2 : List.countP
      (isServerLine ∘ fun n => "    server " ++ n ++ "-backup " ++ n
        ++ ":8888 cookie " ++ n ++ " check backup") nodes = nodes.length := by
    rw [List.countP_eq_length]
    intro a _
    exact isServerLine_backup a
  rw [computeBackendLines_eq]
  simp only [List.countP_cons, List.countP_append, List.countP_map, c1, c2, c3, c4,
    Bool.false_eq_true, if_false, cond_false]
  rw [h1, h2]
  omega

/-- Concrete world `w0` satisfies the steady-regime precondition. -/
theorem standardPreB_w0 : standardPreB w0 := by
  unfold standardPreB
  decide

set_option maxHeartbeats 4000000 in
/-- Outcome of one successful deploy run started with color B live: the run
succeeds, the cutover writes a configuration generated from both pools,
the final configuration is generated from the A pool alone, and the final
world is the steady regime with color A live. -/
theorem runFromB (w : World) (hw : standardPreB w) :
    (scriptDeploy allOk false w).errOf = none ∧
    firstWriteCfg (scriptDeploy allOk false w).trace
      = some (haproxyDoc (new_nodes ++ old_nodes) false) ∧
    (scriptDeploy allOk false w).world.haproxyCfg = haproxyDoc new_nodes false ∧
    liveNodes (scriptDeploy allOk false w).world = new_nodes ∧
    standardPreA (scriptDeploy allOk false w).world := by
  obtain ⟨h1, h2, h3, h4, h5, h6, h7, h8, h9, h10, h11, h12⟩ := hw
  refine ⟨?_, ?_, ?_, ?_, ?_⟩ <;>
    simp [scriptDeploy, deployBlock, provisionLoop, drainLoop, finalizeLoop,
      restart_haproxy, timer_delay, SCLXC.clone, SCLXC.start, SCLXC.shutdown,
      SCLXC.destroy, SCLXC.inside, SCLXC.save_logs, allOk, Res.andThen,
      Res.withTrace, Res.errOf, Res.world, Res.trace, new_nodes_eq, old_nodes_eq,
      all_nodes_eq, lxcn_sagecell, lxcn_tester, liveNodes, standardPreA,
      firstWriteCfg, CState.undef, h1, h2, h3, h4, h5, h6, h7, h8, h9, h10,
      h11, h12]

set_option maxHeartbeats 4000000 in
/-- Outcome of one successful deploy run started with color A live: because
the A pool is already fully defined the script swaps the pools, so the B
pool is provisioned, becomes the one the final configuration is generated
from, and the final world is the steady regime with color B live. -/
theorem runFromA (w : World) (hw : standardPreA w) :
    (scriptDeploy allOk false w).errOf = none ∧
    (scriptDeploy allOk false w).world.haproxyCfg = haproxyDoc old_nodes false ∧
    liveNodes (scriptDeploy allOk false w).world = old_nodes ∧
    standardPreB (scriptDeploy allOk false w).world := by
  obtain ⟨h1, h2, h3, h4, h5, h6, h7, h8, h9, h10, h11, h12⟩ := hw
  refine ⟨?_, ?_, ?_, ?_⟩ <;>
    simp [scriptDeploy, deployBlock, provisionLoop, drainLoop, finalizeLoop,
      restart_haproxy, timer_delay, SCLXC.clone, SCLXC.start, SCLXC.shutdown,
      SCLXC.destroy, SCLXC.inside, SCLXC.save_logs, allOk, Res.andThen,
      Res.withTrace, Res.errOf, Res.world, Res.trace, new_nodes_eq, old_nodes_eq,
      all_nodes_eq, lxcn_sagecell, lxcn_tester, liveNodes, standardPreB,
      CState.undef, h1, h2, h3, h4, h5, h6, h7, h8, h9, h10, h11, h12]

/-! ## Claim theorems -/

/-- Claim C5: `destroy()` on an undefined container is a no-op and never
raises, and `destroy()` is idempotent — immediately after a successful
`destroy()` a second one changes nothing and raises no error. -/
theorem C5_destroy_undefined_noop_and_idempotent (b : Backend) (name : String)
    (w : World) :
    ((w.cs name).defined = false → SCLXC.destroy b name w = Res.ok () w []) ∧
    (∀ w' tr, SCLXC.destroy b name w = Res.ok () w' tr →
      SCLXC.destroy b name w' = Res.ok () w' []) := by
  constructor
  · intro h
    simp [SCLXC.destroy, h]
  · intro w' tr h
    by_cases hd : (w.cs name).defined
    · by_cases hr : (w.cs name).running
      · by_cases hs : b.stopOk name
        · by_cases hdo : b.destroyOk name
          · simp [SCLXC.destroy, hd, hr, hs, hdo] at h
            obtain ⟨rfl, -⟩ := h
            simp [SCLXC.destroy, CState.undef]
          · simp [SCLXC.destroy, hd, hr, hs, hdo] at h
        · simp [SCLXC.destroy, hd, hr, hs] at h
      · by_cases hdo : b.destroyOk name
        · simp [SCLXC.destroy, hd, hr, hdo] at h
          obtain ⟨rfl, -⟩ := h
          simp [SCLXC.destroy, CState.undef]
        · simp [SCLXC.destroy, hd, hr, hdo] at h
    · simp [SCLXC.destroy, hd] at h
      obtain ⟨rfl, -⟩ := h
      simp [SCLXC.destroy, hd]

/-- Witness for C5: destroying an undefined name in the empty world returns
the world unchanged with no events. -/
theorem C5_destroy_undefined_noop_and_idempotent_witness :
    (wUndef.cs "sc-0A").defined = false ∧
    SCLXC.destroy allOk "sc-0A" wUndef = Res.ok () wUndef [] :=
  ⟨by decide,
   (C5_destroy_undefined_noop_and_idempotent allOk "sc-0A" wUndef).1 (by decide)⟩

/-- Claim C6: `clone(targetName)` fails with the clone-source-undefined error
when the source is not defined; when the source is defined it destroys any
pre-existing target before the snapshot (the snapshot is the last event),
the snapshot clone exists afterwards, the autostart flag and delay are
persisted on it when requested, and its stale log artifacts are removed. -/
theorem C6_clone_contract (b : Backend) (w : World) (src tgt : String)
    (au upd : Bool) (hne : src ≠ tgt) :
    ((w.cs src).defined = false →
      SCLXC.clone b src tgt au upd w = Res.fail (.cloneSourceUndefined src) w []) ∧
    ((w.cs src).defined = true →
      Res.errOf (SCLXC.clone allOk src tgt au false w) = none ∧
      ((SCLXC.clone allOk src tgt au false w).world.cs tgt).defined = true ∧
      (au = true →
        ((SCLXC.clone allOk src tgt au false w).world.cs tgt).startAuto = some "1" ∧
        ((SCLXC.clone allOk src tgt au false w).world.cs tgt).startDelay
          = some (toString start_delay)) ∧
      ((SCLXC.clone allOk src tgt au false w).world.cs tgt).hasStaleLogs = false ∧
      (SCLXC.clone allOk src tgt au false w).trace.getLast?
        = some (Ev.snapshot src tgt) ∧
      ((w.cs tgt).defined = true →
        Ev.destroyC tgt ∈ (SCLXC.clone allOk src tgt au false w).trace)) := by
  have hne' : tgt ≠ src := hne.symm
  constructor
  · intro h
    simp [SCLXC.clone, h]
  · intro hdef
    by_cases hr : (w.cs src).running <;> by_cases hd : (w.cs tgt).defined <;>
      by_cases ht : (w.cs tgt).running <;> cases au <;>
      simp [SCLXC.clone, SCLXC.shutdown, SCLXC.destroy, allOk, hdef, hr, hd, ht,
        hne, hne', CState.undef, Res.andThen, Res.withTrace, Res.errOf, Res.world,
        Res.trace]

/-- Witness for C6: cloning the defined master over the defined, running node
`sc-0B` succeeds, destroys the pre-existing target, persists the autostart
flag and clears stale logs. -/
theorem C6_clone_contract_witness :
    ("sagecell" : String) ≠ "sc-0B" ∧
    (w0.cs "sagecell").defined = true ∧
    (w0.cs "sc-0B").defined = true ∧
    Res.errOf (SCLXC.clone allOk "sagecell" "sc-0B" true false w0) = none ∧
    ((SCLXC.clone allOk "sagecell" "sc-0B" true false w0).world.cs "sc-0B").startAuto
      = some "1" ∧
    ((SCLXC.clone allOk "sagecell" "sc-0B" true false w0).world.cs
      "sc-0B").hasStaleLogs = false ∧
    Ev.destroyC "sc-0B" ∈ (SCLXC.clone allOk "sagecell" "sc-0B" true false w0).trace := by
  have h := C6_clone_contract allOk w0 "sagecell" "sc-0B" true false (by decide)
  have h2 := h.2 (by decide)
  exact ⟨by decide, by decide, by decide, h2.1, (h2.2.2.1 rfl).1, h2.2.2.2.1,
    h2.2.2.2.2.2 (by decide)⟩

/-- Claim C7: when the backend reports no address within the configured
timeout, `start()` raises the network-timeout error and leaves the
container defined and running (it is not stopped or destroyed). -/
theorem C7_start_network_timeout_leaves_running (b : Backend) (name : String)
    (w : World) (hdef : (w.cs name).defined = true)
    (hstart : b.startOk name = true) (hip : b.ipUp name timeout = false) :
    Res.errOf (SCLXC.start b name w) = some (.networkTimeout name) ∧
    ((SCLXC.start b name w).world.cs name).running = true ∧
    ((SCLXC.start b name w).world.cs name).defined = true := by
  by_cases hr : (w.cs name).running <;>
    simp [SCLXC.start, hr, hdef, hstart, hip, Res.errOf, Res.world]

/-- Witness for C7: starting the stopped master under a backend whose network
poll never sees an address raises the network timeout and leaves the
container running. -/
theorem C7_start_network_timeout_leaves_running_witness :
    (w0.cs "sagecell").defined = true ∧
    neverIp.startOk "sagecell" = true ∧
    neverIp.ipUp "sagecell" timeout = false ∧
    Res.errOf (SCLXC.start neverIp "sagecell" w0)
      = some (.networkTimeout "sagecell") ∧
    ((SCLXC.start neverIp "sagecell" w0).world.cs "sagecell").running = true ∧
    ((SCLXC.start neverIp "sagecell" w0).world.cs "sagecell").defined = true := by
  have h := C7_start_network_timeout_leaves_running neverIp "sagecell" w0
    (by decide) rfl rfl
  exact ⟨by decide, rfl, rfl, h.1, h.2.1, h.2.2⟩

/-- Claim C10: cloning a defined, running source first shuts the source down
— the graceful-stop event precedes the snapshot event — and the source is
still stopped when `clone` returns, so cloning the live master takes it
offline; the snapshot is taken from the stopped state. -/
theorem C10_clone_shuts_down_running_source (w : World) (src tgt : String)
    (au : Bool) (hne : src ≠ tgt) (hdef : (w.cs src).defined = true)
    (hrun : (w.cs src).running = true) (htgt : (w.cs tgt).defined = false) :
    Res.errOf (SCLXC.clone allOk src tgt au false w) = none ∧
    (SCLXC.clone allOk src tgt au false w).trace
      = [Ev.shutdownC src, Ev.snapshot src tgt] ∧
    ((SCLXC.clone allOk src tgt au false w).world.cs src).running = false ∧
    ((SCLXC.clone allOk src tgt au false w).world.cs tgt).defined = true := by
  have hne' : tgt ≠ src := hne.symm
  cases au <;>
    simp [SCLXC.clone, SCLXC.shutdown, SCLXC.destroy, allOk, hdef, hrun, htgt,
      hne, hne', Res.andThen, Res.withTrace, Res.errOf, Res.world, Res.trace]

/-- Witness for C10: cloning the running node `sc-0B` onto the fresh name
`sc-0A` emits exactly a graceful stop of the source followed by the
snapshot, and leaves the source stopped. -/
theorem C10_clone_shuts_down_running_source_witness :
    ("sc-0B" : String) ≠ "sc-0A" ∧
    (w0.cs "sc-0B").defined = true ∧
    (w0.cs "sc-0B").running = true ∧
    (w0.cs "sc-0A").defined = false ∧
    (SCLXC.clone allOk "sc-0B" "sc-0A" true false w0).trace
      = [Ev.shutdownC "sc-0B", Ev.snapshot "sc-0B" "sc-0A"] ∧
    ((SCLXC.clone allOk "sc-0B" "sc-0A" true false w0).world.cs "sc-0B").running
      = false := by
  have h := C10_clone_shuts_down_running_source w0 "sc-0B" "sc-0A" true
    (by decide) (by decide) (by decide) (by decide)
  exact ⟨by decide, by decide, by decide, by decide, h.2.1, h.2.2.1⟩

/-- Claim C8: for every non-empty list of `k` live node names the compute
backend of the generated configuration consists of its fixed header lines
followed by one primary server line per node and one backup-labelled
server line per node pointing at the same node — exactly `2k` server
lines. -/
theorem C8_compute_backend_server_lines (nodes : List String) (hne : nodes ≠ []) :
    computeBackendLines nodes =
      "backend compute"
        :: "    cookie  SAGECELL_SERVER insert indirect postonly maxidle 2h"
        :: "    option httpchk" :: ""
        :: (nodes.map (fun n => "    server " ++ n ++ " " ++ n ++ ":8888 cookie "
              ++ n ++ " check port 9888")
          ++ nodes.map (fun n => "    server " ++ n ++ "-backup " ++ n
              ++ ":8888 cookie " ++ n ++ " check backup")) ∧
    (computeBackendLines nodes).countP isServerLine = 2 * nodes.length :=
  ⟨computeBackendLines_eq nodes, countP_computeBackend nodes⟩

/-- Witness for C8: with two nodes the compute backend holds four server
lines. -/
theorem C8_compute_backend_server_lines_witness :
    (["x", "y"] : List String) ≠ [] ∧
    (computeBackendLines ["x", "y"]).countP isServerLine
      = 2 * (["x", "y"] : List String).length :=
  ⟨by decide, (C8_compute_backend_server_lines ["x", "y"] (by decide)).2⟩

/-- Counterexample to claim C1 as stated: in a concrete rollout that
completes the Routing step, the configuration written at cutover is
generated from both pools and still contains a server line for the
old-generation node `sc-0B`, so the old generation is still referenced by
the configuration written at cutover. -/
theorem C1_cutover_references_old_generation :
    (scriptDeploy allOk false w0).errOf = none ∧
    firstWriteCfg (scriptDeploy allOk false w0).trace
      = some (haproxyDoc (new_nodes ++ old_nodes) false) ∧
    "sc-0B" ∈ old_nodes ∧
    "    server sc-0B sc-0B:8888 cookie sc-0B check port 9888"
      ∈ haproxyDoc (new_nodes ++ old_nodes) false := by decide

/-- Claim C1, amended: the configuration written at cutover is generated
from the defined nodes of both generations — the old generation is still
referenced there; it is only the final configuration, rewritten after the
old generation has been destroyed at the end of the run, that references
exactly the new-generation live node set. -/
theorem C1_cutover_config_references_both_generations (w : World)
    (hw : standardPreB w) :
    (scriptDeploy allOk false w).errOf = none ∧
    firstWriteCfg (scriptDeploy allOk false w).trace
      = some (haproxyDoc (new_nodes ++ old_nodes) false) ∧
    (scriptDeploy allOk false w).world.haproxyCfg = haproxyDoc new_nodes false := by
  obtain ⟨e, f, c, -, -⟩ := runFromB w hw
  exact ⟨e, f, c⟩

/-- Witness for the amended C1 at the concrete steady-regime world. -/
theorem C1_cutover_config_references_both_generations_witness :
    standardPreB w0 ∧
    firstWriteCfg (scriptDeploy allOk false w0).trace
      = some (haproxyDoc (new_nodes ++ old_nodes) false) ∧
    (scriptDeploy allOk false w0).world.haproxyCfg = haproxyDoc new_nodes false :=
  ⟨standardPreB_w0,
   (C1_cutover_config_references_both_generations w0 standardPreB_w0).2.1,
   (C1_cutover_config_references_both_generations w0 standardPreB_w0).2.2⟩

set_option maxHeartbeats 4000000 in
/-- Claim C2: when any target node fails network readiness during
provisioning, the run aborts with the network-timeout error before any
traffic-affecting change: the configuration file is unchanged and never
written, no container is destroyed, every old-generation node is still
defined and running, and the new-generation nodes provisioned so far —
including the failing one, which is left running — remain in place. -/
theorem C2_provision_failure_fail_closed (w : World) (hw : standardPreB w)
    (bad : String) (hbad : bad ∈ new_nodes) :
    (scriptDeploy (failNet bad) false w).errOf = some (.networkTimeout bad) ∧
    (scriptDeploy (failNet bad) false w).world.haproxyCfg = w.haproxyCfg ∧
    noWriteCfgEv (scriptDeploy (failNet bad) false w).trace = true ∧
    noDestroyEv (scriptDeploy (failNet bad) false w).trace = true ∧
    (old_nodes.all fun n =>
      ((scriptDeploy (failNet bad) false w).world.cs n).defined
      && ((scriptDeploy (failNet bad) false w).world.cs n).running) = true ∧
    ((newBefore bad).all fun n =>
      ((scriptDeploy (failNet bad) false w).world.cs n).defined
      && ((scriptDeploy (failNet bad) false w).world.cs n).running) = true ∧
    ((scriptDeploy (failNet bad) false w).world.cs bad).defined = true ∧
    ((scriptDeploy (failNet bad) false w).world.cs bad).running = true := by
  obtain ⟨h1, h2, h3, h4, h5, h6, h7, h8, h9, h10, h11, h12⟩ := hw
  rw [new_nodes_eq] at hbad
  simp only [List.mem_cons, List.mem_singleton, List.not_mem_nil, or_false] at hbad
  have e0 : newBefore "sc-0A" = [] := by decide
  have e1 : newBefore "sc-1A" = ["sc-0A"] := by decide
  have e2 : newBefore "sc-2A" = ["sc-0A", "sc-1A"] := by decide
  rcases hbad with rfl | rfl | rfl <;>
  · refine ⟨?_, ?_, ?_, ?_, ?_, ?_, ?_, ?_⟩ <;>
      simp [e0, e1, e2, scriptDeploy, deployBlock, provisionLoop, drainLoop,
        finalizeLoop, restart_haproxy, timer_delay, SCLXC.clone, SCLXC.start,
        SCLXC.shutdown, SCLXC.destroy, SCLXC.inside, SCLXC.save_logs, allOk,
        failNet, Res.andThen, Res.withTrace, Res.errOf, Res.world, Res.trace,
        new_nodes_eq, old_nodes_eq, all_nodes_eq, lxcn_sagecell, lxcn_tester,
        noWriteCfgEv, noDestroyEv, CState.undef, h1, h2, h3, h4, h5, h6, h7, h8,
        h9, h10, h11, h12]

/-- Witness for C2: readiness failure of `sc-1A` in the concrete world aborts
the run with the configuration file untouched. -/
theorem C2_provision_failure_fail_closed_witness :
    standardPreB w0 ∧
    "sc-1A" ∈ new_nodes ∧
    (scriptDeploy (failNet "sc-1A") false w0).errOf
      = some (.networkTimeout "sc-1A") ∧
    (scriptDeploy (failNet "sc-1A") false w0).world.haproxyCfg = w0.haproxyCfg :=
  ⟨standardPreB_w0, by decide,
   (C2_provision_failure_fail_closed w0 standardPreB_w0 "sc-1A" (by decide)).1,
   (C2_provision_failure_fail_closed w0 standardPreB_w0 "sc-1A" (by decide)).2.1⟩

/-- Counterexample to claim C3 as stated: when the in-container drain signal
fails on the first old node in a concrete rollout, the uncaught error
aborts the script — the remaining old node `sc-1B` is never signalled to
drain and no old node is destroyed (all remain defined). -/
theorem C3_drain_signal_failure_aborts_rollout :
    (scriptDeploy (failExec "sc-0B") false w0).errOf
      = some (.execFailed "sc-0B" "/root/healthcheck off") ∧
    Ev.exec "sc-1B" "/root/healthcheck off"
      ∉ (scriptDeploy (failExec "sc-0B") false w0).trace ∧
    Ev.destroyC "sc-1B" ∉ (scriptDeploy (failExec "sc-0B") false w0).trace ∧
    ((scriptDeploy (failExec "sc-0B") false w0).world.cs "sc-1B").defined = true ∧
    ((scriptDeploy (failExec "sc-0B") false w0).world.cs "sc-2B").defined = true := by
  decide

set_option maxHeartbeats 4000000 in
/-- Claim C3, amended: a failure of the in-container drain signal is fatal to
the rollout — the script raises the exec-failed error, destroys no
container in that run, and leaves every old-generation node defined and
running; the old generation is only removed by a later successful run. -/
theorem C3_drain_failure_no_drain_no_destroy (w : World) (hw : standardPreB w)
    (bad : String) (hbad : bad ∈ old_nodes) :
    (scriptDeploy (failExec bad) false w).errOf
      = some (.execFailed bad "/root/healthcheck off") ∧
    noDestroyEv (scriptDeploy (failExec bad) false w).trace = true ∧
    (old_nodes.all fun n =>
      ((scriptDeploy (failExec bad) false w).world.cs n).defined
      && ((scriptDeploy (failExec bad) false w).world.cs n).running) = true ∧
    (scriptDeploy (failExec bad) false w).world.haproxyCfg
      = haproxyDoc (new_nodes ++ old_nodes) false := by
  obtain ⟨h1, h2, h3, h4, h5, h6, h7, h8, h9, h10, h11, h12⟩ := hw
  rw [old_nodes_eq] at hbad
  simp only [List.mem_cons, List.mem_singleton, List.not_mem_nil, or_false] at hbad
  rcases hbad with rfl | rfl | rfl <;>
  · refine ⟨?_, ?_, ?_, ?_⟩ <;>
      simp [scriptDeploy, deployBlock, provisionLoop, drainLoop, finalizeLoop,
        restart_haproxy, timer_delay, SCLXC.clone, SCLXC.start, SCLXC.shutdown,
        SCLXC.destroy, SCLXC.inside, SCLXC.save_logs, allOk, failExec, Res.andThen,
        Res.withTrace, Res.errOf, Res.world, Res.trace, new_nodes_eq, old_nodes_eq,
        all_nodes_eq, lxcn_sagecell, lxcn_tester, noDestroyEv, CState.undef,
        h1, h2, h3, h4, h5, h6, h7, h8, h9, h10, h11, h12]

/-- Witness for the amended C3 at the concrete world with the middle old node
failing to accept the drain signal. -/
theorem C3_drain_failure_no_drain_no_destroy_witness :
    standardPreB w0 ∧
    "sc-1B" ∈ old_nodes ∧
    (scriptDeploy (failExec "sc-1B") false w0).errOf
      = some (.execFailed "sc-1B" "/root/healthcheck off") ∧
    noDestroyEv (scriptDeploy (failExec "sc-1B") false w0).trace = true :=
  ⟨standardPreB_w0, by decide,
   (C3_drain_failure_no_drain_no_destroy w0 standardPreB_w0 "sc-1B" (by decide)).1,
   (C3_drain_failure_no_drain_no_destroy w0 standardPreB_w0 "sc-1B"
     (by decide)).2.1⟩

/-- Counterexample to claim C4 as stated: in a concrete rollout whose cutover
completed, a destroy failure on the first old node aborts the script — the
remaining old node `sc-1B` is never destroyed and remains defined, and the
rollout fails as a whole. -/
theorem C4_finalize_error_stops_remaining_destroys :
    (scriptDeploy (failDestroy "sc-0B") false w0).errOf
      = some (.failedToDestroy "sc-0B") ∧
    Ev.destroyC "sc-1B" ∉ (scriptDeploy (failDestroy "sc-0B") false w0).trace ∧
    ((scriptDeploy (failDestroy "sc-0B") false w0).world.cs "sc-1B").defined
      = true := by
  decide

set_option maxHeartbeats 4000000 in
/-- Claim C4, amended: an error while destroying an old-generation node after
cutover aborts the rollout with the failed-to-destroy error; the old nodes
after the failing one in the loop order are neither destroyed nor
undefined, and the configuration keeps the value written at cutover (the
already-completed cutover is not rolled back, but the final
configuration rewrite never happens). -/
theorem C4_finalize_failure_aborts_rest (w : World) (hw : standardPreB w)
    (bad : String) (hbad : bad ∈ old_nodes) :
    (scriptDeploy (failDestroy bad) false w).errOf = some (.failedToDestroy bad) ∧
    ((oldAfter bad).all
      fun n => !((scriptDeploy (failDestroy bad) false w).trace.contains
          (Ev.destroyC n))
        && ((scriptDeploy (failDestroy bad) false w).world.cs n).defined) = true ∧
    (scriptDeploy (failDestroy bad) false w).world.haproxyCfg
      = haproxyDoc (new_nodes ++ old_nodes) false := by
  obtain ⟨h1, h2, h3, h4, h5, h6, h7, h8, h9, h10, h11, h12⟩ := hw
  rw [old_nodes_eq] at hbad
  simp only [List.mem_cons, List.mem_singleton, List.not_mem_nil, or_false] at hbad
  have e0 : oldAfter "sc-0B" = ["sc-1B", "sc-2B"] := by decide
  have e1 : oldAfter "sc-1B" = ["sc-2B"] := by decide
  have e2 : oldAfter "sc-2B" = [] := by decide
  rcases hbad with rfl | rfl | rfl <;>
  · refine ⟨?_, ?_, ?_⟩ <;>
      simp [e0, e1, e2, scriptDeploy, deployBlock, provisionLoop, drainLoop,
        finalizeLoop, restart_haproxy, timer_delay, SCLXC.clone, SCLXC.start,
        SCLXC.shutdown, SCLXC.destroy, SCLXC.inside, SCLXC.save_logs, allOk,
        failDestroy, Res.andThen, Res.withTrace, Res.errOf, Res.world, Res.trace,
        new_nodes_eq, old_nodes_eq, all_nodes_eq, lxcn_sagecell, lxcn_tester,
        CState.undef, h1, h2, h3, h4, h5, h6, h7, h8, h9, h10, h11, h12]

/-- Witness for the amended C4 at the concrete world with the first old node
failing to be destroyed. -/
theorem C4_finalize_failure_aborts_rest_witness :
    standardPreB w0 ∧
    "sc-0B" ∈ old_nodes ∧
    (scriptDeploy (failDestroy "sc-0B") false w0).errOf
      = some (.failedToDestroy "sc-0B") ∧
    ((oldAfter "sc-0B").all
      fun n => !((scriptDeploy (failDestroy "sc-0B") false w0).trace.contains
          (Ev.destroyC n))
        && ((scriptDeploy (failDestroy "sc-0B") false w0).world.cs n).defined)
      = true :=
  ⟨standardPreB_w0, by decide,
   (C4_finalize_failure_aborts_rest w0 standardPreB_w0 "sc-0B" (by decide)).1,
   (C4_finalize_failure_aborts_rest w0 standardPreB_w0 "sc-0B" (by decide)).2.1⟩

/-- Claim C9: two consecutive successful rollouts use disjoint node-name
pools — starting from color B live, the first run leaves the A pool live,
the second run leaves the B pool live, and the two pools share no name. -/
theorem C9_consecutive_rollouts_disjoint_pools (w : World) (hw : standardPreB w) :
    (scriptDeploy allOk false w).errOf = none ∧
    liveNodes (scriptDeploy allOk false w).world = new_nodes ∧
    (scriptDeploy allOk false (scriptDeploy allOk false w).world).errOf = none ∧
    liveNodes (scriptDeploy allOk false
      (scriptDeploy allOk false w).world).world = old_nodes ∧
    ∀ n ∈ new_nodes, n ∉ old_nodes := by
  obtain ⟨e1, -, -, l1, post1⟩ := runFromB w hw
  obtain ⟨e2, -, l2, -⟩ := runFromA _ post1
  exact ⟨e1, l1, e2, l2, by decide⟩

/-- Witness for C9 at the concrete steady-regime world. -/
theorem C9_consecutive_rollouts_disjoint_pools_witness :
    standardPreB w0 ∧
    liveNodes (scriptDeploy allOk false w0).world = new_nodes ∧
    liveNodes (scriptDeploy allOk false
      (scriptDeploy allOk false w0).world).world = old_nodes :=
  ⟨standardPreB_w0,
   (C9_consecutive_rollouts_disjoint_pools w0 standardPreB_w0).2.1,
   (C9_consecutive_rollouts_disjoint_pools w0 standardPreB_w0).2.2.2.1⟩
